import Mathlib

/-!
Verification of the `ast_import_analyzer` package (repository `psat`):
a shallow embedding of the declaration extractor (`visitor.py`), the
per-file analysis and index construction (`analyzer.py`, `manager.py`),
the external-import validation (`utils.py::validate_import`) and
the import resolver (`manager.py::LinterManager._check_import` /
`_validate_imports` / `run`), together with theorems settling the
specification claims about them.
-/

namespace AstImportAnalyzer

/-! ## Paths and basic string machinery -/

/-- A filesystem path, as its list of segments (the embedding of
`pathlib.Path`; joining paths concatenates segment lists). -/
abbrev FsPath := List String

/-- Rendering of a path as a string, the embedding of `str(path)`. -/
def pathToString (p : FsPath) : String := String.intercalate "/" p

/-- The dot character separating the segments of a dotted import path. -/
def dotC : Char := '.'

/-- Splitting a character list at every occurrence of `sep`, keeping empty
pieces, exactly as Python `str.split(sep)` does on the underlying
characters: `"" ↦ [""]`, `"a." ↦ ["a", ""]`, `"a.b" ↦ ["a", "b"]`. -/
def splitChars (sep : Char) : List Char → List (List Char)
  | [] => [[]]
  | c :: rest =>
    let r := splitChars sep rest
    if c = sep then [] :: r
    else (c :: r.headD []) :: r.tail

/-- The embedding of `import_path.split(".")`. -/
def splitDots (s : String) : List String :=
  (splitChars dotC s.data).map (fun cs => String.mk cs)

/-- The embedding of the Python test `"." in dotted_path`. -/
def hasDot (s : String) : Bool := s.data.contains dotC

/-! ## Declaration extractor (`visitor.py::ImportsVisitor`) -/

/-- An `ast.alias` node: the imported dotted name and the optional
`as`-alias. -/
structure Alias where
  name : String
  asname : Option String
deriving DecidableEq

/-- The expression nodes the visitor can meet as assignment targets
(`ast.Name`, `ast.Tuple`, `ast.List`, `ast.Attribute`, `ast.Subscript`,
`ast.Starred`, plus a constructor for any other expression). Only the
constructor matters to `visit_Assign`, which dispatches by `isinstance`. -/
inductive Expr where
  | name (id : String)
  | tupleE (elts : List Expr)
  | listE (elts : List Expr)
  | attributeE (attr : String)
  | subscriptE
  | starredE
  | constE

/-- The statement nodes relevant to the visitor: `ast.Import`,
`ast.ImportFrom` (with its relative-import `level`), `ast.Assign`,
`ast.FunctionDef`, `ast.AsyncFunctionDef`, `ast.ClassDef`; `block`
stands for any other compound statement whose children are visited by
`generic_visit` (e.g. `if`/`while`/`with` bodies), `exprStmt` for a bare
expression statement. -/
inductive Stmt where
  | importS (names : List Alias)
  | importFrom (module : Option String) (names : List Alias) (level : Nat)
  | assign (targets : List Expr) (value : Expr)
  | functionDef (name : String) (body : List Stmt)
  | asyncFunctionDef (name : String) (body : List Stmt)
  | classDef (name : String) (body : List Stmt)
  | exprStmt (e : Expr)
  | block (body : List Stmt)

/-- The visitor's two accumulated sets (`imported_modules`,
`module_defs`), i.e. the spec's `FileFacts`. -/
structure FileFacts where
  imported_modules : Finset String
  module_defs : Finset String
deriving DecidableEq

/-- The contribution of one alias of a `from module import ...` statement
to `imported_modules`, from `visitor.py` lines 43-52: a wildcard records
the module alone when it is non-empty and nothing otherwise; a plain name
records `module.name` when the module is non-empty, else the bare name. -/
def aliasImportFromPath (module : String) (a : Alias) : Option String :=
  if a.name = "*" then
    if module = "" then none else some module
  else if module = "" then some a.name
  else some (module ++ "." ++ a.name)

/-- The id of an `ast.Name` expression, `none` for any other node (the
`isinstance(elt, ast.Name)` test of `visitor.py` line 69). -/
def nameOf : Expr → Option String
  | .name id => some id
  | _ => none

/-- The names one assignment target contributes to `module_defs`, from
`visitor.py` lines 63-70: a `Name` target its own id, a `Tuple` target the
ids of its `Name` elements, every other target nothing. -/
def targetNames : Expr → List String
  | .name id => [id]
  | .tupleE elts => elts.filterMap nameOf
  | _ => []

mutual

/-- The embedding of `ImportsVisitor.visit` on one statement, threading the
accumulated `FileFacts`; `generic_visit` descent into statement bodies is
the recursive call on the body lists (expression children contribute
nothing since the visitor defines no expression hooks). -/
def visitStmt (st : FileFacts) : Stmt → FileFacts
  | .importS names =>
      { st with imported_modules :=
          st.imported_modules ∪ (names.map Alias.name).toFinset }
  | .importFrom module names _ =>
      let m := module.getD ""
      { st with imported_modules :=
          st.imported_modules ∪ (names.filterMap (aliasImportFromPath m)).toFinset }
  | .assign targets _ =>
      { st with module_defs :=
          st.module_defs ∪ (targets.flatMap targetNames).toFinset }
  | .functionDef n body =>
      visitStmts { st with module_defs := insert n st.module_defs } body
  | .asyncFunctionDef n body =>
      visitStmts { st with module_defs := insert n st.module_defs } body
  | .classDef n body =>
      visitStmts { st with module_defs := insert n st.module_defs } body
  | .exprStmt _ => st
  | .block body => visitStmts st body

/-- Visiting a list of statements in order. -/
def visitStmts (st : FileFacts) : List Stmt → FileFacts
  | [] => st
  | s :: rest => visitStmts (visitStmt st s) rest

end

/-- The embedding of `PythonFileAnalyzer.analyze` after parsing: run the
visitor over the module body starting from empty sets. -/
def extract (body : List Stmt) : FileFacts := visitStmts ⟨∅, ∅⟩ body

/-! ## External validation (`utils.py::validate_import`) -/

/-- The behaviour of the ambient runtime's `importlib.import_module` on a
module path, i.e. the spec's `ExternalModuleProvider`: the module exists
(with the given attribute set, for `hasattr`), raises
`ModuleNotFoundError` with the given rendered message, or raises some other
exception with the given rendered message. -/
inductive ModuleLookup where
  | found (attrs : List String)
  | notFound (detail : String)
  | raises (detail : String)
deriving DecidableEq

/-- The embedding of `utils.py::validate_import`: returns the error message
when validation fails, `none` on success. The provider function stands for
`import_module`; note that every provider outcome is turned into a return
value, so the embedding is total — no exception escapes. -/
def validate_import (provider : String → ModuleLookup) (dotted_path : String)
    (source_file : Option String) : Option String :=
  if dotted_path = "" then some "Empty import path"
  else
    let parts := splitDots dotted_path
    let module_path :=
      if hasDot dotted_path then String.intercalate "." parts.dropLast
      else dotted_path
    let attr_name := if hasDot dotted_path then parts.getLastD "" else ""
    let ctx :=
      match source_file with
      | some s => if s = "" then "" else " in " ++ s
      | none => ""
    match provider module_path with
    | .found attrs =>
        if attr_name ≠ "" ∧ ¬ attrs.contains attr_name then
          some ("Module '" ++ module_path ++ "' has no attribute '" ++
            attr_name ++ "'" ++ ctx)
        else none
    | .notFound detail =>
        some ("Module not found: '" ++ module_path ++ "'" ++ ctx ++
          " (" ++ detail ++ ")")
    | .raises detail =>
        some ("Import error for '" ++ dotted_path ++ "': " ++ detail)

/-! ## Import resolver (`manager.py::LinterManager`) -/

/-- An import validation issue (`manager.py::ImportIssue`). -/
structure ImportIssue where
  file : FsPath
  import_path : String
  message : String
  issue_type : String
deriving DecidableEq

/-- An uncaught Python exception inside the resolver. The only one the
resolver can raise is the `TypeError` from `manager.py` line 190, where
`self.root_path / "/".join(module_parts) + ".py"` parses as
`(Path / str) + str` and `Path` supports no `+` operator. -/
inductive PyError where
  | typeError
deriving DecidableEq

deriving instance DecidableEq for Except

set_option linter.unusedVariables false in
/-- The embedding of `LinterManager._check_import`. `fs` is the on-disk
existence predicate (for the `possible_file.exists()` package check),
`file_imports` and `module_defs` the two index maps as association lists in
insertion order, `provider` the runtime module lookup used by
`validate_import`. A `.error` value is an uncaught exception. -/
def check_import (root_path : FsPath) (fs : FsPath → Bool)
    (file_imports : List (FsPath × List String))
    (module_defs : List (FsPath × List String))
    (provider : String → ModuleLookup)
    (file_path : FsPath) (import_path : String) :
    Except PyError (Option ImportIssue) :=
  let parts := splitDots import_path
  if parts.isEmpty then .ok none
  else
    let attr_name := parts.getLastD ""
    let module_parts := parts.dropLast
    if module_parts.isEmpty then
      -- `if module_parts:` is false: fall through to the external check.
      match validate_import provider import_path (some (pathToString file_path)) with
      | some error =>
          .ok (some ⟨file_path, import_path, error, "EXTERNAL"⟩)
      | none => .ok none
    else
      -- Step 2: local module-file match against the index keys.
      let possible_file := root_path ++ module_parts ++ [attr_name ++ ".py"]
      if (file_imports.lookup possible_file).isSome then .ok none
      else
        -- Step 3: on-disk package `__init__.py` match.
        let init_file := root_path ++ (module_parts ++ [attr_name]) ++ ["__init__.py"]
        if fs init_file then .ok none
        else
          -- Line 190 `self.root_path / "/".join(module_parts) + ".py"`
          -- raises `TypeError` (`Path + str` is unsupported), so the
          -- `module_defs` lookup and UNDEFINED issue of lines 191-200 are
          -- unreachable.
          .error .typeError

/-- Checking one file's recorded imports in iteration order, collecting the
issues; an exception from `check_import` propagates. -/
def check_file_imports (root_path : FsPath) (fs : FsPath → Bool)
    (file_imports : List (FsPath × List String))
    (module_defs : List (FsPath × List String))
    (provider : String → ModuleLookup) (file_path : FsPath) :
    List String → Except PyError (List ImportIssue)
  | [] => .ok []
  | imp :: rest =>
    match check_import root_path fs file_imports module_defs provider file_path imp with
    | .error e => .error e
    | .ok issue =>
      match check_file_imports root_path fs file_imports module_defs provider file_path rest with
      | .error e => .error e
      | .ok more => .ok (issue.toList ++ more)

/-- The iteration of `_validate_imports` over the pending part of the
index, with the full `file_imports` map fixed as the lookup table. -/
def validate_imports_from (root_path : FsPath) (fs : FsPath → Bool)
    (file_imports : List (FsPath × List String))
    (module_defs : List (FsPath × List String))
    (provider : String → ModuleLookup) :
    List (FsPath × List String) → Except PyError (List ImportIssue)
  | [] => .ok []
  | (fp, imps) :: rest =>
    match check_file_imports root_path fs file_imports module_defs provider fp imps with
    | .error e => .error e
    | .ok issues =>
      match validate_imports_from root_path fs file_imports module_defs provider rest with
      | .error e => .error e
      | .ok more => .ok (issues ++ more)

/-- The embedding of `LinterManager._validate_imports`: iterate over
`file_imports.items()` in order, then over each file's imports in order,
appending each issue found. -/
def validate_imports (root_path : FsPath) (fs : FsPath → Bool)
    (file_imports : List (FsPath × List String))
    (module_defs : List (FsPath × List String))
    (provider : String → ModuleLookup) : Except PyError (List ImportIssue) :=
  validate_imports_from root_path fs file_imports module_defs provider file_imports

/-! ## Index construction and run (`manager.py::LinterManager`) -/

/-- One logger diagnostic, with its severity level. -/
structure Diag where
  level : String
  message : String
deriving DecidableEq

/-- The outcome of parsing and visiting one file
(`PythonFileAnalyzer.analyze`): success with the extracted facts, a
`SyntaxError` from `ast.parse`, or any other exception (e.g. a read
failure), each with its rendered message. -/
inductive AnalyzeResult where
  | ok (imports : List String) (defs : List String)
  | syntaxError (detail : String)
  | otherError (detail : String)
deriving DecidableEq

/-- The manager's mutable state: the two index maps (as association lists
in insertion order, modelling Python dict insertion order) and the emitted
logger diagnostics. -/
structure ManagerState where
  file_imports : List (FsPath × List String)
  module_defs : List (FsPath × List String)
  diags : List Diag
deriving DecidableEq

/-- The embedding of `LinterManager._analyze_file`: on success both maps
gain the file's entry; a `SyntaxError` logs a warning and adds nothing; any
other exception logs an error and adds nothing. (The optional ruff
pre-cleanup touches neither the index nor the diagnostics.) -/
def analyze_file (ana : FsPath → AnalyzeResult) (st : ManagerState)
    (fp : FsPath) : ManagerState :=
  match ana fp with
  | .ok imps defs =>
      { st with
        file_imports := st.file_imports ++ [(fp, imps)],
        module_defs := st.module_defs ++ [(fp, defs)] }
  | .syntaxError d =>
      { st with diags := st.diags ++
          [⟨"warning", "Syntax error in " ++ pathToString fp ++ ": " ++ d⟩] }
  | .otherError d =>
      { st with diags := st.diags ++
          [⟨"error", "Error analyzing " ++ pathToString fp ++ ": " ++ d⟩] }

/-- The embedding of `_collect_files`/`_analyze_directory`: the external
tree-walk collaborator supplies the ordered file list `files`; each file is
analyzed in turn. -/
def collect_files (ana : FsPath → AnalyzeResult) (files : List FsPath)
    (st : ManagerState) : ManagerState :=
  files.foldl (analyze_file ana) st

/-- The manager state at construction time: empty maps, no diagnostics. -/
def emptyState : ManagerState := ⟨[], [], []⟩

/-- How a run can abort: the `FileNotFoundError` raised by `run` when the
root path does not exist, or an uncaught exception from resolution. -/
inductive RunError where
  | fileNotFound (msg : String)
  | uncaught (e : PyError)
deriving DecidableEq

/-- The embedding of `LinterManager.run`: raise `FileNotFoundError` when
the root does not exist, otherwise collect files then validate imports,
returning the final state and the issue list. -/
def runManager (fs : FsPath → Bool) (ana : FsPath → AnalyzeResult)
    (provider : String → ModuleLookup) (files : List FsPath)
    (root : FsPath) : Except RunError (ManagerState × List ImportIssue) :=
  if fs root then
    let st := collect_files ana files emptyState
    match validate_imports root fs st.file_imports st.module_defs provider with
    | .ok issues => .ok (st, issues)
    | .error e => .error (.uncaught e)
  else .error (.fileNotFound ("Path not found: " ++ pathToString root))

/-! ## Helper lemmas -/

lemma nameOf_eq_some {id : String} :
    ∀ e : Expr, nameOf e = some id ↔ e = Expr.name id := by
  intro e
  cases e <;> simp [nameOf]

lemma mem_targetNames {id : String} :
    ∀ e : Expr, id ∈ targetNames e ↔
      (e = Expr.name id ∨ ∃ elts, e = Expr.tupleE elts ∧ Expr.name id ∈ elts) := by
  intro e
  cases e <;> simp [targetNames, List.mem_filterMap, nameOf_eq_some, eq_comm]

/-! ## Claims about the declaration extractor -/

/-- C3: every simple name target of an assignment is recorded into
`defined_names`, every simple name element of a tuple-destructuring target
is recorded, and nothing else is (in particular attribute and subscript
targets add no entry); after visiting `a, b = 1, 2` both `a` and `b` are
defined. -/
theorem assign_records_name_and_tuple_targets :
    (∀ (st : FileFacts) (targets : List Expr) (value : Expr) (id : String),
      id ∈ (visitStmt st (.assign targets value)).module_defs ↔
        (id ∈ st.module_defs ∨ Expr.name id ∈ targets ∨
          ∃ elts, Expr.tupleE elts ∈ targets ∧ Expr.name id ∈ elts)) ∧
    (∀ (st : FileFacts) (targets : List Expr) (value : Expr),
      (visitStmt st (.assign targets value)).imported_modules =
        st.imported_modules) ∧
    "a" ∈ (visitStmt ⟨∅, ∅⟩
      (.assign [Expr.tupleE [Expr.name "a", Expr.name "b"]] Expr.constE)).module_defs ∧
    "b" ∈ (visitStmt ⟨∅, ∅⟩
      (.assign [Expr.tupleE [Expr.name "a", Expr.name "b"]] Expr.constE)).module_defs := by
  refine ⟨?_, ?_, ?_, ?_⟩
  · intro st targets value id
    simp only [visitStmt, Finset.mem_union, List.mem_toFinset, List.mem_flatMap,
      mem_targetNames]
    constructor
    · rintro (h | ⟨e, he, rfl | ⟨elts, rfl, hm⟩⟩)
      · exact Or.inl h
      · exact Or.inr (Or.inl he)
      · exact Or.inr (Or.inr ⟨elts, he, hm⟩)
    · rintro (h | h | ⟨elts, he, hm⟩)
      · exact Or.inl h
      · exact Or.inr ⟨_, h, Or.inl rfl⟩
      · exact Or.inr ⟨_, he, Or.inr ⟨elts, rfl, hm⟩⟩
  · intro st targets value
    simp [visitStmt]
  · simp [visitStmt, targetNames, nameOf]
  · simp [visitStmt, targetNames, nameOf]

/-- C4: a `from M import *` statement with non-empty `M` records exactly
`M` (nothing derived from the wildcard), and a wildcard under a
module-relative import with no named module records nothing. -/
theorem import_star_records_module_only (st : FileFacts) (M : String)
    (a : Option String) (lvl : Nat) (hM : M ≠ "") :
    visitStmt st (.importFrom (some M) [⟨"*", a⟩] lvl) =
      { st with imported_modules := insert M st.imported_modules } ∧
    visitStmt st (.importFrom none [⟨"*", a⟩] lvl) = st := by
  constructor
  · simp only [visitStmt]
    simp [List.filterMap_cons, aliasImportFromPath, hM, Finset.insert_eq,
      Finset.union_comm]
  · simp [visitStmt, aliasImportFromPath]

/-- C4 witness: `from pkg import *` records exactly `pkg`; `from . import *`
records nothing. -/
theorem import_star_records_module_only_witness :
    visitStmt ⟨∅, ∅⟩ (.importFrom (some "pkg") [⟨"*", none⟩] 0) =
      ⟨insert "pkg" ∅, ∅⟩ ∧
    visitStmt ⟨∅, ∅⟩ (.importFrom none [⟨"*", none⟩] 1) = ⟨∅, ∅⟩ :=
  import_star_records_module_only ⟨∅, ∅⟩ "pkg" none 0 (by decide)

/-- C5: a relative import with no explicit module, `from . import x`,
records exactly the bare name `x`. -/
theorem relative_import_records_bare_name (st : FileFacts) (x : String)
    (a : Option String) (lvl : Nat) (hx : x ≠ "*") :
    visitStmt st (.importFrom none [⟨x, a⟩] lvl) =
      { st with imported_modules := insert x st.imported_modules } := by
  simp only [visitStmt]
  simp [List.filterMap_cons, aliasImportFromPath, hx, Finset.insert_eq,
    Finset.union_comm]

/-- C5 witness: `from . import foo` records exactly `foo`. -/
theorem relative_import_records_bare_name_witness :
    visitStmt ⟨∅, ∅⟩ (.importFrom none [⟨"foo", none⟩] 1) =
      ⟨insert "foo" ∅, ∅⟩ :=
  relative_import_records_bare_name ⟨∅, ∅⟩ "foo" none 1 (by decide)

/-- C10: `import X as y` records the original dotted path `X` verbatim (no
partial segments), and the alias `y` enters neither the imported-path set
nor `defined_names`. -/
theorem import_alias_records_original_path (st : FileFacts) (X y : String)
    (hne : y ≠ X) :
    visitStmt st (.importS [⟨X, some y⟩]) =
      { st with imported_modules := insert X st.imported_modules } ∧
    (y ∈ (visitStmt st (.importS [⟨X, some y⟩])).imported_modules ↔
      y ∈ st.imported_modules) ∧
    (visitStmt st (.importS [⟨X, some y⟩])).module_defs = st.module_defs := by
  have h1 : visitStmt st (.importS [⟨X, some y⟩]) =
      { st with imported_modules := insert X st.imported_modules } := by
    simp only [visitStmt]
    simp [Finset.insert_eq, Finset.union_comm]
  refine ⟨h1, ?_, ?_⟩
  · rw [h1]
    simp [Finset.mem_insert, hne]
  · rw [h1]

/-- C10 witness: `import os.path as osp` records `os.path` and nothing for
`osp`. -/
theorem import_alias_records_original_path_witness :
    visitStmt ⟨∅, ∅⟩ (.importS [⟨"os.path", some "osp"⟩]) =
      ⟨insert "os.path" ∅, ∅⟩ ∧
    ("osp" ∈ (visitStmt ⟨∅, ∅⟩
      (.importS [⟨"os.path", some "osp"⟩])).imported_modules ↔
      "osp" ∈ (∅ : Finset String)) ∧
    (visitStmt ⟨∅, ∅⟩ (.importS [⟨"os.path", some "osp"⟩])).module_defs =
      (∅ : Finset String) :=
  import_alias_records_original_path ⟨∅, ∅⟩ "os.path" "osp" (by decide)

/-! ## Claims about index construction -/

/-- The `file_imports` entry a file contributes when its analysis
succeeds. -/
def okImportsEntry (ana : FsPath → AnalyzeResult) (fp : FsPath) :
    Option (FsPath × List String) :=
  match ana fp with
  | .ok imps _ => some (fp, imps)
  | _ => none

/-- The `module_defs` entry a file contributes when its analysis
succeeds. -/
def okDefsEntry (ana : FsPath → AnalyzeResult) (fp : FsPath) :
    Option (FsPath × List String) :=
  match ana fp with
  | .ok _ defs => some (fp, defs)
  | _ => none

/-- The diagnostics one file's analysis emits. -/
def diagAt (ana : FsPath → AnalyzeResult) (fp : FsPath) : List Diag :=
  match ana fp with
  | .ok _ _ => []
  | .syntaxError d =>
      [⟨"warning", "Syntax error in " ++ pathToString fp ++ ": " ++ d⟩]
  | .otherError d =>
      [⟨"error", "Error analyzing " ++ pathToString fp ++ ": " ++ d⟩]

lemma collect_files_closed_form (ana : FsPath → AnalyzeResult) :
    ∀ (files : List FsPath) (st : ManagerState),
    collect_files ana files st =
      ⟨st.file_imports ++ files.filterMap (okImportsEntry ana),
       st.module_defs ++ files.filterMap (okDefsEntry ana),
       st.diags ++ files.flatMap (diagAt ana)⟩ := by
  intro files
  induction files with
  | nil => intro st; simp [collect_files]
  | cons f rest ih =>
    intro st
    have hstep : collect_files ana (f :: rest) st =
        collect_files ana rest (analyze_file ana st f) := rfl
    rw [hstep, ih]
    cases h : ana f <;>
      simp [analyze_file, okImportsEntry, okDefsEntry, diagAt, h,
        List.filterMap_cons, List.append_assoc]

lemma lookup_filterMap_none {β : Type} (F : FsPath → Option (FsPath × β))
    (f : FsPath) (hkey : ∀ fp p, F fp = some p → p.1 = fp)
    (hf : F f = none) :
    ∀ l : List FsPath, (l.filterMap F).lookup f = none := by
  intro l
  induction l with
  | nil => simp
  | cons g rest ih =>
    cases hFg : F g with
    | none => simp [List.filterMap_cons, hFg, ih]
    | some p =>
      have hp : p.1 = g := hkey g p hFg
      by_cases hfg : f = g
      · subst hfg
        rw [hFg] at hf
        cases hf
      · have hb : (f == g) = false := by simp [hfg]
        simp [List.filterMap_cons, hFg, List.lookup, hp, hb, ih]

set_option linter.unnecessarySeqFocus false in
/-- C6: a file whose text fails to parse contributes no entry to either
index map, emits exactly a warning-level diagnostic, and every other file
is analyzed normally (the maps are exactly the successful files'
contributions, in order — the run is not aborted). -/
theorem parse_failure_skips_file_only (ana : FsPath → AnalyzeResult)
    (files : List FsPath) (f : FsPath) (d : String)
    (hf : ana f = .syntaxError d) (hmem : f ∈ files) :
    (collect_files ana files emptyState).file_imports.lookup f = none ∧
    (collect_files ana files emptyState).module_defs.lookup f = none ∧
    Diag.mk "warning" ("Syntax error in " ++ pathToString f ++ ": " ++ d) ∈
      (collect_files ana files emptyState).diags ∧
    (collect_files ana files emptyState).file_imports =
      files.filterMap (okImportsEntry ana) ∧
    (collect_files ana files emptyState).module_defs =
      files.filterMap (okDefsEntry ana) := by
  rw [collect_files_closed_form]
  refine ⟨?_, ?_, ?_, rfl, rfl⟩
  · apply lookup_filterMap_none
    · intro fp p hp
      unfold okImportsEntry at hp
      cases h : ana fp <;> rw [h] at hp <;> cases hp <;> rfl
    · unfold okImportsEntry
      rw [hf]
  · apply lookup_filterMap_none
    · intro fp p hp
      unfold okDefsEntry at hp
      cases h : ana fp <;> rw [h] at hp <;> cases hp <;> rfl
    · unfold okDefsEntry
      rw [hf]
  · simp only [emptyState, List.nil_append, List.mem_flatMap]
    exact ⟨f, hmem, by simp [diagAt, hf]⟩

/-- Analysis outcome function for the C6 witness: `bad.py` has a syntax
error, every other file parses and defines `main` while importing `os`. -/
def c6Ana : FsPath → AnalyzeResult := fun p =>
  if p = ["bad.py"] then .syntaxError "boom" else .ok ["os"] ["main"]

/-- The file list for the C6 witness. -/
def c6Files : List FsPath := [["good.py"], ["bad.py"]]

/-- C6 witness: on a concrete project where `bad.py` fails to parse,
`bad.py` is excluded from both maps, a warning is logged, and `good.py` is
analyzed normally. -/
theorem parse_failure_skips_file_only_witness :
    (collect_files c6Ana c6Files emptyState).file_imports.lookup ["bad.py"] = none ∧
    (collect_files c6Ana c6Files emptyState).module_defs.lookup ["bad.py"] = none ∧
    Diag.mk "warning" ("Syntax error in " ++ pathToString ["bad.py"] ++ ": " ++ "boom") ∈
      (collect_files c6Ana c6Files emptyState).diags ∧
    (collect_files c6Ana c6Files emptyState).file_imports =
      c6Files.filterMap (okImportsEntry c6Ana) ∧
    (collect_files c6Ana c6Files emptyState).module_defs =
      c6Files.filterMap (okDefsEntry c6Ana) :=
  parse_failure_skips_file_only c6Ana c6Files ["bad.py"] "boom" (by decide)
    (by decide)

/-- The keys of an index map, in insertion order. -/
def keysOf (l : List (FsPath × List String)) : List FsPath := l.map Prod.fst

lemma keys_filterMap_entries (ana : FsPath → AnalyzeResult) :
    ∀ files : List FsPath,
    keysOf (files.filterMap (okImportsEntry ana)) =
      keysOf (files.filterMap (okDefsEntry ana)) := by
  intro files
  induction files with
  | nil => rfl
  | cons f rest ih =>
    cases h : ana f <;>
      simp [List.filterMap_cons, okImportsEntry, okDefsEntry, h, keysOf] at ih ⊢ <;>
      exact ih

/-- C9: per-file analysis keeps the two index maps consistent — after any
sequence of per-file analysis steps, the key list of the imported-paths map
equals the key list of the defined-names map (a file contributes both
records or neither). -/
theorem index_key_sets_consistent (ana : FsPath → AnalyzeResult)
    (files : List FsPath) (st : ManagerState)
    (h : keysOf st.file_imports = keysOf st.module_defs) :
    keysOf (collect_files ana files st).file_imports =
      keysOf (collect_files ana files st).module_defs := by
  rw [collect_files_closed_form]
  simp only [keysOf, List.map_append] at *
  rw [h]
  have := keys_filterMap_entries ana files
  simp only [keysOf] at this
  rw [this]

/-- C9 witness: starting from the freshly constructed manager, analyzing a
concrete file list leaves the two maps with equal key lists. -/
theorem index_key_sets_consistent_witness :
    keysOf (collect_files c6Ana [["good.py"], ["bad.py"], ["other.py"]]
        emptyState).file_imports =
      keysOf (collect_files c6Ana [["good.py"], ["bad.py"], ["other.py"]]
        emptyState).module_defs :=
  index_key_sets_consistent c6Ana [["good.py"], ["bad.py"], ["other.py"]]
    emptyState rfl

/-! ## Claims about the resolver -/

/-- The `file_imports` index of the C1 failing input: the project root is
`r`, `r/pkg/mod.py` is indexed, and `r/app.py` records the import
`pkg.mod.foo` (the file `from pkg.mod import foo`). -/
def c1FileImports : List (FsPath × List String) :=
  [(["r", "pkg", "mod.py"], []), (["r", "app.py"], ["pkg.mod.foo"])]

/-- The `module_defs` index of the C1 failing input: `r/pkg/mod.py`
defines exactly `foo`. -/
def c1ModuleDefs : List (FsPath × List String) :=
  [(["r", "pkg", "mod.py"], ["foo"]), (["r", "app.py"], [])]

/-- C1: on the failing input (spec Scenario 1 — `pkg/mod.py` defines `foo`
and `app.py` imports `pkg.mod.foo`, so the claim demands VALID from the
local attribute match), the module file `r/pkg/mod.py` is a key of the
index and defines the attribute, the first two local checks fail, yet
`_check_import` raises `TypeError` at `manager.py` line 190 instead of
consulting `defined_names`. -/
theorem local_attribute_check_raises_type_error :
    c1ModuleDefs.lookup ["r", "pkg", "mod.py"] = some ["foo"] ∧
    check_import ["r"] (fun _ => false) c1FileImports c1ModuleDefs
      (fun _ => .found []) ["r", "app.py"] "pkg.mod.foo" =
      .error .typeError := by
  exact ⟨rfl, rfl⟩

/-- C2 counterexample: two resolver runs over indices that map the same
file to the same imported-path *set* — `{a, b}` iterated as `[a, b]` in one
run and `[b, a]` in the other, as Python string-set iteration may do across
processes — produce different ordered issue lists. -/
theorem resolver_output_depends_on_set_iteration_order :
    (["a", "b"] : List String).toFinset = (["b", "a"] : List String).toFinset ∧
    validate_imports ["r"] (fun _ => false) [(["app.py"], ["a", "b"])] []
        (fun _ => .notFound "nf") ≠
      validate_imports ["r"] (fun _ => false) [(["app.py"], ["b", "a"])] []
        (fun _ => .notFound "nf") := by
  constructor
  · decide
  · decide

/-- C2 amended: for a fixed iteration sequence over the index (same files,
same imported-path sequences) and extensionally equal filesystem and
provider behaviour, the resolver's ordered issue list is identical — it
depends on nothing besides these inputs. -/
theorem resolver_deterministic_for_fixed_iteration (root : FsPath)
    (fs1 fs2 : FsPath → Bool) (file_imports md : List (FsPath × List String))
    (p1 p2 : String → ModuleLookup)
    (hfs : ∀ q, fs1 q = fs2 q) (hp : ∀ m, p1 m = p2 m) :
    validate_imports root fs1 file_imports md p1 =
      validate_imports root fs2 file_imports md p2 := by
  have h1 : fs1 = fs2 := funext hfs
  have h2 : p1 = p2 := funext hp
  rw [h1, h2]

/-- C2 amended witness: a concrete re-run with behaviourally identical
filesystem and provider yields the identical issue list. -/
theorem resolver_deterministic_for_fixed_iteration_witness :
    validate_imports ["r"] (fun _ => false) [(["app.py"], ["a", "b"])] []
        (fun _ => .notFound "nf") =
      validate_imports ["r"] (fun _ => false) [(["app.py"], ["a", "b"])] []
        (fun _ => .notFound "nf") :=
  resolver_deterministic_for_fixed_iteration ["r"] (fun _ => false)
    (fun _ => false) [(["app.py"], ["a", "b"])] [] (fun _ => .notFound "nf")
    (fun _ => .notFound "nf") (fun _ => rfl) (fun _ => rfl)

/-- C7: an import that is delegated to the external check (a single-segment
path, the only shape that reaches it) on which the provider raises an
unexpected failure yields an EXTERNAL issue carrying the detail message —
the result is `.ok`, never an uncaught exception. -/
theorem provider_failure_becomes_external_issue (root : FsPath)
    (fs : FsPath → Bool) (file_imports md : List (FsPath × List String))
    (provider : String → ModuleLookup) (file_path : FsPath) (p detail : String)
    (hsplit : splitDots p = [p]) (hdot : hasDot p = false) (hne : p ≠ "")
    (hprov : provider p = .raises detail) :
    check_import root fs file_imports md provider file_path p =
      .ok (some ⟨file_path, p,
        "Import error for '" ++ p ++ "': " ++ detail, "EXTERNAL"⟩) := by
  unfold check_import validate_import
  rw [hsplit]
  simp [hdot, hne, hprov]

/-- C7 witness: a provider blowing up on the single-segment import `x`
produces exactly one EXTERNAL issue with the provider's detail, without a
crash. -/
theorem provider_failure_becomes_external_issue_witness :
    check_import ["r"] (fun _ => false) [] [] (fun _ => .raises "boom")
      ["app.py"] "x" =
      .ok (some ⟨["app.py"], "x",
        "Import error for '" ++ "x" ++ "': " ++ "boom", "EXTERNAL"⟩) :=
  provider_failure_becomes_external_issue ["r"] (fun _ => false) [] []
    (fun _ => .raises "boom") ["app.py"] "x" "boom" (by decide) (by decide)
    (by decide) rfl

/-- C8: when the configured root path does not exist, `run` raises
`FileNotFoundError` immediately — no state or issue list is ever produced
(the result is the error, not an `.ok` pair). -/
theorem missing_root_aborts_run (fs : FsPath → Bool)
    (ana : FsPath → AnalyzeResult) (provider : String → ModuleLookup)
    (files : List FsPath) (root : FsPath) (h : fs root = false) :
    runManager fs ana provider files root =
      .error (.fileNotFound ("Path not found: " ++ pathToString root)) := by
  simp [runManager, h]

/-- C8 witness: on a filesystem with no paths at all, a concrete run aborts
with `FileNotFoundError` before analyzing its (non-empty) file list. -/
theorem missing_root_aborts_run_witness :
    runManager (fun _ => false) c6Ana (fun _ => .found []) [["good.py"]]
      ["nonexistent"] =
      .error (.fileNotFound ("Path not found: " ++ pathToString ["nonexistent"])) :=
  missing_root_aborts_run (fun _ => false) c6Ana (fun _ => .found [])
    [["good.py"]] ["nonexistent"] rfl

end AstImportAnalyzer
